import Mathlib

/-!
Shallow embedding of the ESP32-S3 WebUSB stroke-counter test firmware
(`src/esp32-firmware/usb-stroke-test/src/main.cpp`).

Strings are modelled as Lean `String` / `List Char`; the Arduino
`String::indexOf` / `substring` / `trim` operations are reproduced over
`List Char`.  The 32-bit unsigned machine integers (`uint32_t` counters,
`unsigned long` millisecond timestamps) are modelled as `Nat` with explicit
reduction modulo `2^32` where the C code can overflow or wrap.  The single
polling `loop()` becomes a pure step function on an explicit firmware state,
taking the sampled pin levels, the current `millis()` readings and the
inbound line buffer as inputs and returning the new state, the remaining
buffer and the list of emitted packets.
-/

namespace StrokeFw

/-- `leadsWith pat l` is true when the character list `l` starts with `pat`.
Used to model C `strstr`-style matching inside `String::indexOf`. -/
def leadsWith : List Char → List Char → Bool
  | [], _ => true
  | _ :: _, [] => false
  | p :: ps, c :: cs => p == c && leadsWith ps cs

/-- Index of the first occurrence of `pat` inside `hay`, or `none`.
Models the search performed by Arduino `String::indexOf` (via `strstr`). -/
def findSub : List Char → List Char → Option Nat
  | [], pat => if leadsWith pat [] then some 0 else none
  | c :: rest, pat =>
    if leadsWith pat (c :: rest) then some 0
    else (findSub rest pat).map (· + 1)

/-- Substring containment test, `hay.indexOf(pat) >= 0` in the C code. -/
def containsSub (hay pat : List Char) : Bool := (findSub hay pat).isSome

/-- Arduino `String::indexOf(pat)`: first index as an `int`, `-1` if absent. -/
def indexOfInt (hay pat : List Char) : Int :=
  match findSub hay pat with
  | some i => (i : Int)
  | none => -1

/-- Arduino `String::indexOf(pat, fromIndex)`: first index at or after
`fromIndex`, `-1` if absent. -/
def indexOfFromInt (hay pat : List Char) (fromIdx : Nat) : Int :=
  match findSub (hay.drop fromIdx) pat with
  | some i => ((i + fromIdx : Nat) : Int)
  | none => -1

/-- The whitespace test used by Arduino `String::trim` (C `isspace`). -/
def isSpaceC (c : Char) : Bool :=
  c == ' ' || c == '\t' || c == '\n' || c == '\x0b' || c == '\x0c' || c == '\r'

/-- Arduino `String::trim`: strip leading and trailing whitespace. -/
def trimChars (l : List Char) : List Char :=
  ((l.dropWhile isSpaceC).reverse.dropWhile isSpaceC).reverse

/-- `2^32`, the modulus of `uint32_t` / `unsigned long` on the ESP32. -/
def U32 : Nat := 4294967296

/-- Unsigned 32-bit subtraction `a - b`, as computed by
`now - lastPress` on `unsigned long` values. -/
def subWrap (a b : Nat) : Nat := (a % U32 + (U32 - b % U32)) % U32

/-- `const unsigned long DEBOUNCE_MS = 200;` -/
def DEBOUNCE_MS : Nat := 200

/-- Heartbeat period in ms (`millis() - lastHeartbeat > 5000`). -/
def HEARTBEAT_MS : Nat := 5000

/-- The firmware's mutable globals: the two stroke counters, the active job
identifier, the per-channel debounce timestamps and the heartbeat timer
(`static unsigned long lastHeartbeat` inside `loop`). -/
structure FwState where
  strokesOC : Nat
  strokesCC : Nat
  activeJobId : List Char
  lastPressOC : Nat
  lastPressCC : Nat
  lastHeartbeat : Nat
deriving DecidableEq, Repr

/-- The token `"PING"` (quotes included) searched for by `handleIncoming`. -/
def pingTok : List Char := ("\"PING\"").data

/-- The token `"RESET"` (quotes included) searched for by `handleIncoming`. -/
def resetTok : List Char := ("\"RESET\"").data

/-- The token `"JOB_SELECTED"` (quotes included). -/
def jobSelTok : List Char := ("\"JOB_SELECTED\"").data

/-- The marker `"jobId":"` whose first occurrence anchors job-id extraction. -/
def jobIdMarker : List Char := ("\"jobId\":\"").data

/-- The double-quote character searched for as the token's closing quote. -/
def quoteChar : Char := '"'

/-- The acknowledgment packet sent for a PING command. -/
def ackPong : String := "\x7b\"type\":\"ACK\",\"message\":\"pong\"\x7d"

/-- The acknowledgment packet sent for a RESET command. -/
def ackReset : String := "\x7b\"type\":\"ACK\",\"message\":\"counters reset\"\x7d"

/-- The acknowledgment packet echoing a freshly set job identifier. -/
def jobAckPkt (job : List Char) : String :=
  "\x7b\"type\":\"ACK\",\"message\":\"job set: " ++ String.mk job ++ "\"\x7d"

/-- `sendStroke(foam)`: the stroke packet built from the current counters. -/
def strokePacket (foam : String) (oc cc : Nat) : String :=
  "\x7b\"type\":\"STROKE\",\"foam\":\"" ++ foam ++ "\",\"oc\":" ++ Nat.repr oc
    ++ ",\"cc\":" ++ Nat.repr cc ++ "\x7d"

/-- The heartbeat packet built in `loop()` from the counters and job id. -/
def heartbeatPacket (oc cc : Nat) (job : List Char) : String :=
  "\x7b\"type\":\"HEARTBEAT\",\"oc\":" ++ Nat.repr oc ++ ",\"cc\":" ++ Nat.repr cc
    ++ ",\"jobId\":\"" ++ String.mk job ++ "\"\x7d"

/-- `sendPacket`: `println` terminates the payload with CR LF on the wire. -/
def sendPacketStr (json : String) : String := json ++ "\r\n"

/-- `handleIncoming(raw)`: substring-dispatch over the three known tokens,
in source order PING, RESET, JOB_SELECTED; returns the updated state and
the emitted packets. -/
def handleIncoming (raw : List Char) (s : FwState) : FwState × List String :=
  if containsSub raw pingTok then
    (s, [ackPong])
  else if containsSub raw resetTok then
    ({ s with strokesOC := 0, strokesCC := 0 }, [ackReset])
  else if containsSub raw jobSelTok then
    let start : Int := indexOfInt raw jobIdMarker + 9
    let stop : Int := indexOfFromInt raw [quoteChar] start.toNat
    if start > 9 ∧ stop > start then
      let job := (raw.drop start.toNat).take (stop - start).toNat
      ({ s with activeJobId := job }, [jobAckPkt job])
    else (s, [])
  else (s, [])

/-- One debounced read of a single channel
(`if (digitalRead(pin) == LOW && (now - lastPress > DEBOUNCE_MS)) ...`):
returns the new debounce timestamp, the new counter value and whether the
edge was accepted. -/
def sampleChannel (pressedLow : Bool) (now lastPress count : Nat) :
    Nat × Nat × Bool :=
  if pressedLow && decide (subWrap now lastPress > DEBOUNCE_MS) then
    (now, (count + 1) % U32, true)
  else (lastPress, count, false)

/-- The inputs sampled by one `loop()` iteration: the two pin levels
(true = read LOW, i.e. pressed), `now = millis()` taken at the top of the
iteration, and the `millis()` reading used by the heartbeat check. -/
structure LoopIn where
  btnOCLow : Bool
  btnCCLow : Bool
  now : Nat
  hbNow : Nat
deriving DecidableEq, Repr

/-- Whether the open-cell branch accepts an edge this iteration. -/
def acceptOC (inp : LoopIn) (s : FwState) : Bool :=
  inp.btnOCLow && decide (subWrap inp.now s.lastPressOC > DEBOUNCE_MS)

/-- Whether the closed-cell branch accepts an edge this iteration. -/
def acceptCC (inp : LoopIn) (s : FwState) : Bool :=
  inp.btnCCLow && decide (subWrap inp.now s.lastPressCC > DEBOUNCE_MS)

/-- The button-sampling part of `loop()`: the OC branch runs first, so the
CC stroke packet already sees the incremented OC counter. -/
def sampleStep (inp : LoopIn) (s : FwState) : FwState × List String :=
  let rOC := sampleChannel inp.btnOCLow inp.now s.lastPressOC s.strokesOC
  let out1 := if rOC.2.2 then [strokePacket "oc" rOC.2.1 s.strokesCC] else []
  let rCC := sampleChannel inp.btnCCLow inp.now s.lastPressCC s.strokesCC
  let out2 := if rCC.2.2 then [strokePacket "cc" rOC.2.1 rCC.2.1] else []
  ({ s with strokesOC := rOC.2.1, strokesCC := rCC.2.1,
            lastPressOC := rOC.1, lastPressCC := rCC.1 }, out1 ++ out2)

/-- The inbound part of `loop()`: if at least one complete line is buffered
(`WebUSBSerial.available()`), read exactly one (`readStringUntil`), trim it
and, when non-empty, hand it to `handleIncoming`. -/
def inboundStep (buf : List (List Char)) (s : FwState) :
    FwState × List (List Char) × List String :=
  match buf with
  | [] => (s, [], [])
  | line :: rest =>
    let t := trimChars line
    if t.length > 0 then
      let r := handleIncoming t s
      (r.1, rest, r.2)
    else (s, rest, [])

/-- The heartbeat part of `loop()`: every `HEARTBEAT_MS`, update the timer
and emit the heartbeat packet built from the current counters and job id.
The two adjacent `millis()` calls of this branch are modelled as the single
sample `hbNow`. -/
def heartbeatStep (hbNow : Nat) (s : FwState) : FwState × List String :=
  if decide (subWrap hbNow s.lastHeartbeat > HEARTBEAT_MS) then
    ({ s with lastHeartbeat := hbNow },
     [heartbeatPacket s.strokesOC s.strokesCC s.activeJobId])
  else (s, [])

/-- One full `loop()` iteration: sample both buttons, consume at most one
inbound line, then run the heartbeat check.  Returns the new state, the
lines still buffered, and the packets emitted in order. -/
def loopStep (inp : LoopIn) (buf : List (List Char)) (s : FwState) :
    FwState × List (List Char) × List String :=
  let r1 := sampleStep inp s
  let r2 := inboundStep buf r1.1
  let r3 := heartbeatStep inp.hbNow r2.1
  (r3.1, r2.2.1, r1.2 ++ r2.2.2 ++ r3.2)

/-- Repeated polls of the open-cell branch alone, one per listed `millis()`
value, with the pin read LOW each time; returns the final debounce
timestamp and counter. -/
def runEdgesOC (times : List Nat) (lastPress count : Nat) : Nat × Nat :=
  match times with
  | [] => (lastPress, count)
  | t :: ts =>
    let r := sampleChannel true t lastPress count
    runEdgesOC ts r.1 r.2.1

/-- Spec-side JSON shape: the comma-separated `"key":value` fields of an
object, in the given order. -/
def jsonFields : List (String × String) → String
  | [] => ""
  | [kv] => "\"" ++ kv.1 ++ "\":" ++ kv.2
  | kv :: rest => "\"" ++ kv.1 ++ "\":" ++ kv.2 ++ "," ++ jsonFields rest

/-- Spec-side JSON shape: an object whose keys appear exactly in the order
listed. -/
def jsonObj (fields : List (String × String)) : String :=
  "\x7b" ++ jsonFields fields ++ "\x7d"

/-- Spec-side JSON shape: a quoted string value. -/
def jsonStr (v : String) : String := "\"" ++ v ++ "\""

/-- The bounded prefix identifying a stroke packet. -/
def strokeHead : List Char := ("\x7b\"type\":\"STROKE\"").data

/-- Whether a packet is a stroke packet (used to state that rejected edges
emit no stroke). -/
def isStrokePkt (p : String) : Bool := leadsWith strokeHead p.data

/-- Whether the head of the inbound buffer is a line that the interpreter
will treat as a RESET command this iteration (non-blank after trimming,
no PING token, RESET token present). -/
def resetConsumed (buf : List (List Char)) : Bool :=
  match buf with
  | [] => false
  | line :: _ =>
    let t := trimChars line
    decide (t.length > 0) && !containsSub t pingTok && containsSub t resetTok

/-- Spacing discipline on a run of polls: each `millis()` value is a valid
32-bit reading and exceeds the previous accepted timestamp by strictly more
than the debounce interval. -/
def gapsOK (lastPress : Nat) : List Nat → Bool
  | [] => true
  | t :: ts =>
    decide (lastPress + DEBOUNCE_MS < t) && decide (t < U32) && gapsOK t ts

/-! ## Helper lemmas -/

theorem str_eq_of_data_eq (a b : String) (h : a.data = b.data) : a = b :=
  congrArg String.mk h

theorem subWrap_eq_sub (a b : Nat) (hb : b ≤ a) (ha : a < U32) :
    subWrap a b = a - b := by
  simp only [subWrap, U32] at *
  omega

theorem leadsWith_append (pat l1 l2 : List Char) (h : pat.length ≤ l1.length) :
    leadsWith pat (l1 ++ l2) = leadsWith pat l1 := by
  induction pat generalizing l1 with
  | nil => simp [leadsWith]
  | cons p ps ih =>
    cases l1 with
    | nil => simp at h
    | cons c cs =>
      simp only [List.cons_append, leadsWith]
      show (p == c && leadsWith ps (cs ++ l2)) = (p == c && leadsWith ps cs)
      rw [ih cs (by simpa using h)]

theorem isStrokePkt_ack_job (job : List Char) :
    isStrokePkt (jobAckPkt job) = false := by
  simp only [isStrokePkt, jobAckPkt, String.data_append, List.append_assoc]
  rw [leadsWith_append _ _ _ (by decide)]
  decide

theorem isStrokePkt_heartbeat (oc cc : Nat) (job : List Char) :
    isStrokePkt (heartbeatPacket oc cc job) = false := by
  simp only [isStrokePkt, heartbeatPacket, String.data_append, List.append_assoc]
  rw [leadsWith_append _ _ _ (by decide)]
  decide

theorem handleIncoming_no_stroke (raw : List Char) (s : FwState) :
    ∀ p ∈ (handleIncoming raw s).2, isStrokePkt p = false := by
  by_cases hp : containsSub raw pingTok = true
  · intro p hmem
    simp [handleIncoming, hp] at hmem
    subst hmem
    decide
  · by_cases hr : containsSub raw resetTok = true
    · intro p hmem
      simp [handleIncoming, hp, hr] at hmem
      subst hmem
      decide
    · by_cases hj : containsSub raw jobSelTok = true
      · intro p hmem
        simp only [handleIncoming, hp, hr, hj, if_true, if_false] at hmem
        simp only [Bool.false_eq_true, if_false] at hmem
        split at hmem
        · simp at hmem
          subst hmem
          exact isStrokePkt_ack_job _
        · simp at hmem
      · intro p hmem
        simp [handleIncoming, hp, hr, hj] at hmem

theorem handleIncoming_counters (raw : List Char) (s : FwState) :
    ((handleIncoming raw s).1.strokesOC = s.strokesOC ∧
     (handleIncoming raw s).1.strokesCC = s.strokesCC) ∨
    (containsSub raw pingTok = false ∧ containsSub raw resetTok = true ∧
     (handleIncoming raw s).1.strokesOC = 0 ∧
     (handleIncoming raw s).1.strokesCC = 0) := by
  by_cases hp : containsSub raw pingTok = true
  · left
    simp [handleIncoming, hp]
  · by_cases hr : containsSub raw resetTok = true
    · right
      refine ⟨by simpa using hp, hr, ?_, ?_⟩
      · simp [handleIncoming, hp, hr]
      · simp [handleIncoming, hp, hr]
    · left
      by_cases hj : containsSub raw jobSelTok = true
      · simp only [handleIncoming, hp, hr, hj, Bool.false_eq_true, if_false,
          if_true]
        split
        · simp
        · simp
      · simp [handleIncoming, hp, hr, hj]

theorem handleIncoming_jobId (raw : List Char) (s : FwState)
    (h : containsSub raw pingTok = true ∨ containsSub raw resetTok = true) :
    (handleIncoming raw s).1.activeJobId = s.activeJobId := by
  rcases h with h | h
  · simp [handleIncoming, h]
  · by_cases hp : containsSub raw pingTok = true
    · simp [handleIncoming, hp]
    · simp [handleIncoming, hp, h]

theorem inboundStep_counters (buf : List (List Char)) (s : FwState) :
    ((inboundStep buf s).1.strokesOC = s.strokesOC ∧
     (inboundStep buf s).1.strokesCC = s.strokesCC) ∨
    (resetConsumed buf = true ∧ (inboundStep buf s).1.strokesOC = 0 ∧
     (inboundStep buf s).1.strokesCC = 0) := by
  cases buf with
  | nil => simp [inboundStep]
  | cons line rest =>
    simp only [inboundStep, resetConsumed]
    by_cases ht : (trimChars line).length > 0
    · simp only [ht, if_pos]
      rcases handleIncoming_counters (trimChars line) s with h | h
      · left
        exact h
      · right
        refine ⟨?_, h.2.2.1, h.2.2.2⟩
        simp [ht, h.1, h.2.1]
    · simp [ht]

theorem sampleStep_counters (inp : LoopIn) (s : FwState) :
    ((sampleStep inp s).1.strokesOC = s.strokesOC ∨
     (sampleStep inp s).1.strokesOC = (s.strokesOC + 1) % U32) ∧
    ((sampleStep inp s).1.strokesCC = s.strokesCC ∨
     (sampleStep inp s).1.strokesCC = (s.strokesCC + 1) % U32) := by
  simp only [sampleStep, sampleChannel]
  constructor
  · split
    · simp
    · simp
  · split
    · simp
    · simp

theorem heartbeatStep_counters (hbNow : Nat) (s : FwState) :
    (heartbeatStep hbNow s).1.strokesOC = s.strokesOC ∧
    (heartbeatStep hbNow s).1.strokesCC = s.strokesCC := by
  unfold heartbeatStep
  split
  · simp
  · simp

/-! ## Claim C1 -/

/-- Claim C1, as stated, is false at the debounce boundary: two polls of the
open-cell channel with the pin low, at `millis()` readings 201 and 401,
are spaced exactly the debounce interval (200 ms) apart — so "at least the
debounce interval apart" — and the first qualifies, yet the final counter
is 1, not the number of edges (2): the guard `now - lastPress > DEBOUNCE_MS`
is strict. -/
theorem C1_exact_debounce_spacing_cex :
    DEBOUNCE_MS ≤ 201 - 0 ∧ DEBOUNCE_MS ≤ 401 - 201 ∧
    (runEdgesOC [201, 401] 0 0).2 = 1 ∧ [201, 401].length = 2 := by
  decide

/-- Claim C1 (amended): for every run of polls of one channel with the level
active (low) at each poll, if every `millis()` reading is a valid 32-bit
value exceeding the previous accepted timestamp by STRICTLY more than the
debounce interval (200 ms), and the counter does not overflow, then the
final stroke counter equals the starting value plus exactly the number of
polled edges. -/
theorem C1_spaced_edges_all_counted (times : List Nat) (lastPress count : Nat)
    (hlp : lastPress < U32) (hg : gapsOK lastPress times = true)
    (hcnt : count + times.length < U32) :
    (runEdgesOC times lastPress count).2 = count + times.length := by
  induction times generalizing lastPress count with
  | nil => simp [runEdgesOC]
  | cons t ts ih =>
    simp only [gapsOK, Bool.and_eq_true, decide_eq_true_eq] at hg
    obtain ⟨⟨h1, h2⟩, h3⟩ := hg
    have hsub : subWrap t lastPress = t - lastPress :=
      subWrap_eq_sub t lastPress (by simp only [DEBOUNCE_MS] at h1; omega) h2
    have hacc : (true && decide (subWrap t lastPress > DEBOUNCE_MS)) = true := by
      rw [hsub]
      simp only [DEBOUNCE_MS] at h1 ⊢
      simp only [Bool.true_and, decide_eq_true_eq]
      omega
    have hlen : count + (t :: ts).length = (count + 1) + ts.length := by
      simp [List.length_cons]
      omega
    rw [hlen]
    have hmod : (count + 1) % U32 = count + 1 := by
      apply Nat.mod_eq_of_lt
      simp only [List.length_cons] at hcnt
      omega
    have hrec := ih t (count + 1) h2 h3
      (by simp only [List.length_cons] at hcnt; omega)
    simp only [runEdgesOC, sampleChannel, hacc, if_true, hmod]
    exact hrec

/-- Witness for C1 (amended): three polls at 300, 501 and 702 ms, each
strictly more than 200 ms after the previous accepted edge, count exactly
three strokes from zero. -/
theorem C1_spaced_edges_all_counted_witness :
    (0 < U32 ∧ gapsOK 0 [300, 501, 702] = true ∧
      0 + [300, 501, 702].length < U32) ∧
    (runEdgesOC [300, 501, 702] 0 0).2 = 0 + [300, 501, 702].length :=
  ⟨⟨by decide, by decide, by decide⟩,
    C1_spaced_edges_all_counted [300, 501, 702] 0 0 (by decide) (by decide)
      (by decide)⟩

/-! ## Claim C2 -/

/-- Claim C2: in a loop iteration whose `millis()` reading is strictly less
than 200 ms past each channel's last accepted edge, the sampler accepts
nothing: both counters and both debounce timestamps are unchanged, and no
packet emitted anywhere in the iteration is a stroke packet. -/
theorem C2_within_debounce_ignored (inp : LoopIn) (buf : List (List Char))
    (s : FwState)
    (hoc : subWrap inp.now s.lastPressOC < DEBOUNCE_MS)
    (hcc : subWrap inp.now s.lastPressCC < DEBOUNCE_MS) :
    (sampleStep inp s).1.strokesOC = s.strokesOC ∧
    (sampleStep inp s).1.strokesCC = s.strokesCC ∧
    (sampleStep inp s).1.lastPressOC = s.lastPressOC ∧
    (sampleStep inp s).1.lastPressCC = s.lastPressCC ∧
    (sampleStep inp s).2 = [] ∧
    (∀ p ∈ (loopStep inp buf s).2.2, isStrokePkt p = false) := by
  have hocb : decide (subWrap inp.now s.lastPressOC > DEBOUNCE_MS) = false := by
    simp only [decide_eq_false_iff_not]
    omega
  have hccb : decide (subWrap inp.now s.lastPressCC > DEBOUNCE_MS) = false := by
    simp only [decide_eq_false_iff_not]
    omega
  have hs : sampleStep inp s = (s, []) := by
    simp [sampleStep, sampleChannel, hocb, hccb]
  refine ⟨by simp [hs], by simp [hs], by simp [hs], by simp [hs],
    by simp [hs], ?_⟩
  intro p hmem
  simp only [loopStep, hs] at hmem
  simp only [List.nil_append, List.mem_append] at hmem
  rcases hmem with hmem | hmem
  · rcases hbuf : buf with _ | ⟨line, rest⟩
    · subst hbuf
      simp [inboundStep] at hmem
    · subst hbuf
      simp only [inboundStep] at hmem
      split at hmem
      · exact handleIncoming_no_stroke _ _ p (by simpa using hmem)
      · simp at hmem
  · unfold heartbeatStep at hmem
    split at hmem
    · simp at hmem
      subst hmem
      exact isStrokePkt_heartbeat _ _ _
    · simp at hmem

/-- Witness for C2: with both debounce timestamps at 100 and `millis()` at
250 (150 ms later), a pressed open-cell pin changes nothing and the only
possible outputs are non-stroke packets. -/
theorem C2_within_debounce_ignored_witness :
    (sampleStep ⟨true, true, 250, 0⟩ ⟨3, 4, [], 100, 100, 0⟩).1.strokesOC = 3 ∧
    (sampleStep ⟨true, true, 250, 0⟩ ⟨3, 4, [], 100, 100, 0⟩).2 = [] := by
  have h := C2_within_debounce_ignored ⟨true, true, 250, 0⟩ []
    ⟨3, 4, [], 100, 100, 0⟩ (by decide) (by decide)
  exact ⟨h.1, h.2.2.2.2.1⟩

/-! ## Claim C3 -/

/-- The inbound line used to refute claim C3: it contains the RESET token,
but also the PING token, and PING is tested first. -/
def resetPingLine : List Char :=
  ("\x7b\"type\":\"RESET\",\"echo\":\"PING\"\x7d").data

/-- Claim C3, as stated, is false: this line contains the RESET token
(`"RESET"`), yet because it also contains `"PING"` — which `handleIncoming`
tests first — the counters stay at 5 and 7 (not zero) and the emitted
acknowledgment is "pong", not "counters reset". -/
theorem C3_reset_line_with_ping_cex :
    containsSub resetPingLine resetTok = true ∧
    handleIncoming resetPingLine ⟨5, 7, [], 0, 0, 0⟩
      = (⟨5, 7, [], 0, 0, 0⟩, [ackPong]) ∧
    (5 : Nat) ≠ 0 := by
  decide

/-- Claim C3 (amended): for every prior state, processing an inbound line
that contains the RESET token and does not contain the PING token zeroes
both counters, emits exactly the "counters reset" acknowledgment, and
leaves the active job identifier unchanged. -/
theorem C3_reset_zeroes_counters (raw : List Char) (s : FwState)
    (hr : containsSub raw resetTok = true)
    (hp : containsSub raw pingTok = false) :
    handleIncoming raw s
      = ({ s with strokesOC := 0, strokesCC := 0 }, [ackReset]) ∧
    (handleIncoming raw s).1.activeJobId = s.activeJobId := by
  constructor
  · simp [handleIncoming, hp, hr]
  · simp [handleIncoming, hp, hr]

/-- Witness for C3 (amended): the plain reset command zeroes counters 9 and
4 and keeps the job identifier. -/
theorem C3_reset_zeroes_counters_witness :
    handleIncoming ("\x7b\"type\":\"RESET\"\x7d").data ⟨9, 4, "j".data, 1, 2, 3⟩
      = (⟨0, 0, "j".data, 1, 2, 3⟩, [ackReset]) :=
  (C3_reset_zeroes_counters ("\x7b\"type\":\"RESET\"\x7d").data
    ⟨9, 4, "j".data, 1, 2, 3⟩ (by decide) (by decide)).1

/-! ## Claim C4 -/

/-- The inbound line used to refute claim C4: a job-selection line whose
`"jobId":"` marker sits at index 0. -/
def markerFirstLine : List Char :=
  ("\"jobId\":\"abc\",\"type\":\"JOB_SELECTED\"").data

/-- Claim C4, as stated, is false: this line is recognized as a
job-selection command (it contains the JOB_SELECTED token and neither PING
nor RESET), its `"jobId":"` marker is present (at index 0) and is followed
by a closing quote after the non-empty token `abc`, yet the interpreter
leaves the job identifier unchanged and emits nothing, because
`int start = raw.indexOf("\"jobId\":\"") + 9` then `start > 9` rejects a
marker found at index 0. -/
theorem C4_marker_at_line_start_cex :
    containsSub markerFirstLine jobSelTok = true ∧
    containsSub markerFirstLine pingTok = false ∧
    containsSub markerFirstLine resetTok = false ∧
    findSub markerFirstLine jobIdMarker = some 0 ∧
    findSub (markerFirstLine.drop 9) [quoteChar] = some 3 ∧
    handleIncoming markerFirstLine ⟨0, 0, "old".data, 0, 0, 0⟩
      = (⟨0, 0, "old".data, 0, 0, 0⟩, []) := by
  decide

/-- Claim C4 (amended): for every inbound line recognized as a
job-selection command, (a) if the `"jobId":"` marker first occurs at a
POSITIVE index and the first quote at or after the token start leaves a
NON-EMPTY token, the interpreter sets the active job identifier to exactly
the characters between marker and closing quote and emits an
acknowledgment echoing them; (b) if the marker is missing, or (c) no
closing quote follows it, the prior job identifier is kept and nothing is
emitted. -/
theorem C4_job_selection_parse (raw : List Char) (s : FwState)
    (hj : containsSub raw jobSelTok = true)
    (hp : containsSub raw pingTok = false)
    (hr : containsSub raw resetTok = false) :
    (∀ i j, findSub raw jobIdMarker = some i → 0 < i →
        findSub (raw.drop (i + 9)) [quoteChar] = some j → 0 < j →
        handleIncoming raw s =
          ({ s with activeJobId := (raw.drop (i + 9)).take j },
           [jobAckPkt ((raw.drop (i + 9)).take j)])) ∧
    (findSub raw jobIdMarker = none → handleIncoming raw s = (s, [])) ∧
    (∀ i, findSub raw jobIdMarker = some i →
        findSub (raw.drop (i + 9)) [quoteChar] = none →
        handleIncoming raw s = (s, [])) := by
  refine ⟨?_, ?_, ?_⟩
  · intro i j hm hipos hq hjpos
    have e1 : indexOfInt raw jobIdMarker = (i : Int) := by
      simp [indexOfInt, hm]
    have e2 : ((i : Int) + 9).toNat = i + 9 := by omega
    have e3 : indexOfFromInt raw [quoteChar] (i + 9)
        = ((j + (i + 9) : Nat) : Int) := by
      simp [indexOfFromInt, hq]
    have e4 : ((((j + (i + 9) : Nat)) : Int) - ((i : Int) + 9)).toNat = j := by
      omega
    simp only [handleIncoming, hp, hr, hj, Bool.false_eq_true, if_false,
      if_true, e1, e2, e3]
    rw [if_pos ⟨by omega, by omega⟩]
    rw [e4]
  · intro hm
    have e1 : indexOfInt raw jobIdMarker = -1 := by
      simp [indexOfInt, hm]
    simp only [handleIncoming, hp, hr, hj, Bool.false_eq_true, if_false,
      if_true, e1]
    rw [if_neg]
    intro hcontra
    have h8 := hcontra.1
    omega
  · intro i hm hq
    have e1 : indexOfInt raw jobIdMarker = (i : Int) := by
      simp [indexOfInt, hm]
    have e2 : ((i : Int) + 9).toNat = i + 9 := by omega
    have e3 : indexOfFromInt raw [quoteChar] (i + 9) = -1 := by
      simp [indexOfFromInt, hq]
    simp only [handleIncoming, hp, hr, hj, Bool.false_eq_true, if_false,
      if_true, e1, e2, e3]
    rw [if_neg]
    intro hcontra
    have habs := hcontra.2
    omega

/-- Witness for C4 (amended): the canonical job-selection line sets the job
identifier to `job-42` and echoes it. -/
theorem C4_job_selection_parse_witness :
    handleIncoming
        ("\x7b\"type\":\"JOB_SELECTED\",\"jobId\":\"job-42\"\x7d").data
        ⟨0, 0, [], 0, 0, 0⟩
      = (⟨0, 0, "job-42".data, 0, 0, 0⟩, [jobAckPkt ("job-42").data]) := by
  have h := (C4_job_selection_parse
      ("\x7b\"type\":\"JOB_SELECTED\",\"jobId\":\"job-42\"\x7d").data
      ⟨0, 0, [], 0, 0, 0⟩ (by decide) (by decide) (by decide)).1
    23 6 (by decide) (by decide) (by decide) (by decide)
  exact h

/-! ## Claim C5 -/

/-- Claim C5: the interpreter tests the three quoted tokens in the fixed
order PING, RESET, JOB_SELECTED and acts only on the first one present: a
line with the PING token always just gets "pong" with no state change; a
line without PING but with RESET zeroes the counters; a line with only
JOB_SELECTED never touches the counters and emits at most one packet; a
line with none of the three changes nothing and emits nothing. -/
theorem C5_dispatch_priority (raw : List Char) (s : FwState) :
    (containsSub raw pingTok = true →
      handleIncoming raw s = (s, [ackPong])) ∧
    (containsSub raw pingTok = false → containsSub raw resetTok = true →
      handleIncoming raw s
        = ({ s with strokesOC := 0, strokesCC := 0 }, [ackReset])) ∧
    (containsSub raw pingTok = false → containsSub raw resetTok = false →
      containsSub raw jobSelTok = true →
      (handleIncoming raw s).1.strokesOC = s.strokesOC ∧
      (handleIncoming raw s).1.strokesCC = s.strokesCC ∧
      (handleIncoming raw s).2.length ≤ 1) ∧
    (containsSub raw pingTok = false → containsSub raw resetTok = false →
      containsSub raw jobSelTok = false →
      handleIncoming raw s = (s, [])) := by
  refine ⟨fun hp => by simp [handleIncoming, hp],
    fun hp hr => by simp [handleIncoming, hp, hr],
    fun hp hr hj => ?_,
    fun hp hr hj => by simp [handleIncoming, hp, hr, hj]⟩
  simp only [handleIncoming, hp, hr, hj, Bool.false_eq_true, if_false,
    if_true]
  split
  · simp
  · simp

/-- Witness for C5: on a line carrying both the PING and the RESET token,
the first test wins — the state is untouched and only "pong" is sent. -/
theorem C5_dispatch_priority_witness :
    handleIncoming ("\"PING\" with \"RESET\"").data ⟨3, 4, [], 0, 0, 0⟩
      = (⟨3, 4, [], 0, 0, 0⟩, [ackPong]) :=
  (C5_dispatch_priority ("\"PING\" with \"RESET\"").data
    ⟨3, 4, [], 0, 0, 0⟩).1 (by decide)

/-! ## Claim C6 -/

/-- Claim C6, as stated, is false at the 32-bit wrap: a loop iteration with
an accepted open-cell edge, no inbound line at all (so certainly no reset
command), takes the counter from `2^32 - 1` to 0 — a decrease caused by
`strokesOC++` overflowing `uint32_t`, not by a reset. -/
theorem C6_wrap_decreases_counter_cex :
    resetConsumed [] = false ∧
    (loopStep ⟨true, false, 300, 0⟩ []
        ⟨U32 - 1, 0, [], 0, 0, 0⟩).1.strokesOC = 0 ∧
    0 < U32 - 1 := by
  decide

/-- Claim C6 (amended): over one loop iteration (sampler, command
interpretation, heartbeat emission), each stroke counter is either
unchanged, incremented by one modulo `2^32` by the sampler, or zeroed —
and it is zeroed (other than by wrap) only when the consumed inbound line
is a reset command; consequently, as long as no reset command is consumed
and the counter is below `2^32 - 1`, it is monotonically non-decreasing.
The heartbeat never modifies the counters. -/
theorem C6_counter_step_shape (inp : LoopIn) (buf : List (List Char))
    (s : FwState) :
    ((loopStep inp buf s).1.strokesOC = s.strokesOC ∨
     (loopStep inp buf s).1.strokesOC = (s.strokesOC + 1) % U32 ∨
     (resetConsumed buf = true ∧ (loopStep inp buf s).1.strokesOC = 0)) ∧
    ((loopStep inp buf s).1.strokesCC = s.strokesCC ∨
     (loopStep inp buf s).1.strokesCC = (s.strokesCC + 1) % U32 ∨
     (resetConsumed buf = true ∧ (loopStep inp buf s).1.strokesCC = 0)) ∧
    (resetConsumed buf = false → s.strokesOC + 1 < U32 →
      s.strokesOC ≤ (loopStep inp buf s).1.strokesOC) ∧
    (resetConsumed buf = false → s.strokesCC + 1 < U32 →
      s.strokesCC ≤ (loopStep inp buf s).1.strokesCC) := by
  have hloop : (loopStep inp buf s).1
      = (heartbeatStep inp.hbNow
          (inboundStep buf (sampleStep inp s).1).1).1 := rfl
  obtain ⟨hsOC, hsCC⟩ := sampleStep_counters inp s
  have hhb := heartbeatStep_counters inp.hbNow
    (inboundStep buf (sampleStep inp s).1).1
  have hfinOC : (loopStep inp buf s).1.strokesOC
      = (inboundStep buf (sampleStep inp s).1).1.strokesOC := by
    rw [hloop]
    exact hhb.1
  have hfinCC : (loopStep inp buf s).1.strokesCC
      = (inboundStep buf (sampleStep inp s).1).1.strokesCC := by
    rw [hloop]
    exact hhb.2
  rcases inboundStep_counters buf (sampleStep inp s).1 with
    ⟨hiOC, hiCC⟩ | ⟨hres, hz1, hz2⟩
  · have hmainOC : (loopStep inp buf s).1.strokesOC = s.strokesOC ∨
        (loopStep inp buf s).1.strokesOC = (s.strokesOC + 1) % U32 := by
      rw [hfinOC, hiOC]
      exact hsOC
    have hmainCC : (loopStep inp buf s).1.strokesCC = s.strokesCC ∨
        (loopStep inp buf s).1.strokesCC = (s.strokesCC + 1) % U32 := by
      rw [hfinCC, hiCC]
      exact hsCC
    refine ⟨hmainOC.imp id Or.inl, hmainCC.imp id Or.inl, ?_, ?_⟩
    · intro _ hlt
      rcases hmainOC with h | h
      · omega
      · rw [h, Nat.mod_eq_of_lt hlt]
        omega
    · intro _ hlt
      rcases hmainCC with h | h
      · omega
      · rw [h, Nat.mod_eq_of_lt hlt]
        omega
  · refine ⟨Or.inr (Or.inr ⟨hres, by rw [hfinOC]; exact hz1⟩),
      Or.inr (Or.inr ⟨hres, by rw [hfinCC]; exact hz2⟩), ?_, ?_⟩
    · intro hfalse _
      rw [hfalse] at hres
      cases hres
    · intro hfalse _
      rw [hfalse] at hres
      cases hres

/-- Witness for C6 (amended): a plain accepted edge never decreases the
counter when far from the wrap point. -/
theorem C6_counter_step_shape_witness :
    (4 : Nat) ≤ (loopStep ⟨true, false, 250, 0⟩ []
        ⟨4, 9, [], 0, 0, 0⟩).1.strokesOC :=
  (C6_counter_step_shape ⟨true, false, 250, 0⟩ []
    ⟨4, 9, [], 0, 0, 0⟩).2.2.1 (by decide) (by decide)

/-! ## Claim C7 -/

/-- Claim C7: stroke packets are JSON objects with exactly the keys `type`,
`foam`, `oc`, `cc` in that order, heartbeat packets with exactly `type`,
`oc`, `cc`, `jobId` in that order; the sampler emits a stroke packet
exactly on each accepted edge, tagged `oc`/`cc` and carrying both counters
as they stand at emission; a due heartbeat carries both counters and the
current (possibly empty) job identifier; and every transmitted packet line
is newline-terminated. -/
theorem C7_packet_shapes :
    (∀ foam oc cc, strokePacket foam oc cc =
        jsonObj [("type", jsonStr "STROKE"), ("foam", jsonStr foam),
                 ("oc", Nat.repr oc), ("cc", Nat.repr cc)]) ∧
    (∀ oc cc job, heartbeatPacket oc cc job =
        jsonObj [("type", jsonStr "HEARTBEAT"), ("oc", Nat.repr oc),
                 ("cc", Nat.repr cc), ("jobId", jsonStr (String.mk job))]) ∧
    (∀ inp s, (sampleStep inp s).2 =
        (if acceptOC inp s = true then
          [strokePacket "oc" (sampleStep inp s).1.strokesOC s.strokesCC]
         else []) ++
        (if acceptCC inp s = true then
          [strokePacket "cc" (sampleStep inp s).1.strokesOC
            (sampleStep inp s).1.strokesCC]
         else [])) ∧
    (∀ hbNow s, subWrap hbNow s.lastHeartbeat > HEARTBEAT_MS →
        (heartbeatStep hbNow s).2
          = [heartbeatPacket s.strokesOC s.strokesCC s.activeJobId]) ∧
    (∀ p, (sendPacketStr p).data.getLast? = some '\n') := by
  refine ⟨?_, ?_, ?_, ?_, ?_⟩
  · intro foam oc cc
    apply str_eq_of_data_eq
    simp [strokePacket, jsonObj, jsonFields, jsonStr, String.data_append]
  · intro oc cc job
    apply str_eq_of_data_eq
    simp [heartbeatPacket, jsonObj, jsonFields, jsonStr, String.data_append]
  · intro inp s
    by_cases h1 : acceptOC inp s = true
    · by_cases h2 : acceptCC inp s = true
      · simp only [acceptOC] at h1
        simp only [acceptCC] at h2
        simp [sampleStep, sampleChannel, acceptOC, acceptCC, h1, h2]
      · simp only [acceptOC] at h1
        simp only [acceptCC] at h2
        simp [sampleStep, sampleChannel, acceptOC, acceptCC, h1, h2]
    · by_cases h2 : acceptCC inp s = true
      · simp only [acceptOC] at h1
        simp only [acceptCC] at h2
        simp [sampleStep, sampleChannel, acceptOC, acceptCC, h1, h2]
      · simp only [acceptOC] at h1
        simp only [acceptCC] at h2
        simp [sampleStep, sampleChannel, acceptOC, acceptCC, h1, h2]
  · intro hbNow s h
    simp [heartbeatStep, h]
  · intro p
    simp [sendPacketStr, String.data_append]

/-- Witness for C7: a due heartbeat from counters 1 and 2 and job id `j`
emits exactly the heartbeat packet carrying them. -/
theorem C7_packet_shapes_witness :
    (heartbeatStep 6000 ⟨1, 2, "j".data, 0, 0, 0⟩).2
      = [heartbeatPacket 1 2 ("j").data] :=
  C7_packet_shapes.2.2.2.1 6000 ⟨1, 2, "j".data, 0, 0, 0⟩ (by decide)

/-! ## Claim C8 -/

/-- Claim C8: each loop iteration consumes at most one buffered inbound
line: the buffer after the iteration is exactly the tail of the buffer
before it (so its length drops by at most one), and the resulting state
and emitted packets depend only on that first line — the remaining lines
are untouched and wait for later iterations. -/
theorem C8_one_inbound_line_per_loop (inp : LoopIn) (buf : List (List Char))
    (s : FwState) :
    (loopStep inp buf s).2.1 = buf.tail ∧
    buf.length ≤ (loopStep inp buf s).2.1.length + 1 ∧
    (∀ line rest, buf = line :: rest →
      (loopStep inp buf s).1 = (loopStep inp [line] s).1 ∧
      (loopStep inp buf s).2.2 = (loopStep inp [line] s).2.2) := by
  have htail : (loopStep inp buf s).2.1 = buf.tail := by
    show (inboundStep buf (sampleStep inp s).1).2.1 = buf.tail
    cases buf with
    | nil => simp [inboundStep]
    | cons line rest =>
      by_cases h : (trimChars line).length > 0 <;> simp [inboundStep, h]
  refine ⟨htail, ?_, ?_⟩
  · rw [htail]
    cases buf <;> simp
  · intro line rest hbuf
    subst hbuf
    have hst : (inboundStep (line :: rest) (sampleStep inp s).1).1
        = (inboundStep [line] (sampleStep inp s).1).1 := by
      by_cases h : (trimChars line).length > 0 <;> simp [inboundStep, h]
    have hout : (inboundStep (line :: rest) (sampleStep inp s).1).2.2
        = (inboundStep [line] (sampleStep inp s).1).2.2 := by
      by_cases h : (trimChars line).length > 0 <;> simp [inboundStep, h]
    constructor
    · show (heartbeatStep inp.hbNow
          (inboundStep (line :: rest) (sampleStep inp s).1).1).1
        = (heartbeatStep inp.hbNow
          (inboundStep [line] (sampleStep inp s).1).1).1
      rw [hst]
    · show (sampleStep inp s).2
          ++ (inboundStep (line :: rest) (sampleStep inp s).1).2.2
          ++ (heartbeatStep inp.hbNow
              (inboundStep (line :: rest) (sampleStep inp s).1).1).2
        = (sampleStep inp s).2
          ++ (inboundStep [line] (sampleStep inp s).1).2.2
          ++ (heartbeatStep inp.hbNow
              (inboundStep [line] (sampleStep inp s).1).1).2
      rw [hst, hout]

/-- Witness for C8: with two complete lines buffered, the iteration's state
and output match those with only the first line buffered. -/
theorem C8_one_inbound_line_per_loop_witness :
    (loopStep ⟨false, false, 0, 0⟩ [("\"PING\"").data, ("x").data]
        ⟨0, 0, [], 0, 0, 0⟩).1
      = (loopStep ⟨false, false, 0, 0⟩ [("\"PING\"").data]
        ⟨0, 0, [], 0, 0, 0⟩).1 ∧
    (loopStep ⟨false, false, 0, 0⟩ [("\"PING\"").data, ("x").data]
        ⟨0, 0, [], 0, 0, 0⟩).2.2
      = (loopStep ⟨false, false, 0, 0⟩ [("\"PING\"").data]
        ⟨0, 0, [], 0, 0, 0⟩).2.2 :=
  (C8_one_inbound_line_per_loop ⟨false, false, 0, 0⟩
    [("\"PING\"").data, ("x").data] ⟨0, 0, [], 0, 0, 0⟩).2.2
    ("\"PING\"").data [("x").data] rfl

/-! ## Claim C9 -/

/-- Claim C9: recognition requires the quote characters around the tokens:
a line that contains one of the bare words PING, RESET or JOB_SELECTED but
none of the quoted tokens `"PING"`, `"RESET"`, `"JOB_SELECTED"` is treated
as unrecognized — no state change, no output. -/
theorem C9_bare_tokens_unrecognized (raw : List Char) (s : FwState)
    (_hbare : containsSub raw ("PING").data = true ∨
      containsSub raw ("RESET").data = true ∨
      containsSub raw ("JOB_SELECTED").data = true)
    (hp : containsSub raw pingTok = false)
    (hr : containsSub raw resetTok = false)
    (hj : containsSub raw jobSelTok = false) :
    handleIncoming raw s = (s, []) := by
  simp [handleIncoming, hp, hr, hj]

/-- Witness for C9: a line with the bare word PING (no quotes) changes
nothing and emits nothing. -/
theorem C9_bare_tokens_unrecognized_witness :
    handleIncoming ("\x7btype:PING\x7d").data ⟨2, 3, [], 0, 0, 0⟩
      = (⟨2, 3, [], 0, 0, 0⟩, []) :=
  C9_bare_tokens_unrecognized ("\x7btype:PING\x7d").data ⟨2, 3, [], 0, 0, 0⟩
    (Or.inl (by decide)) (by decide) (by decide) (by decide)

/-! ## Claim C10 -/

/-- Claim C10: on a job-selection line whose extracted token is empty —
the first quote at or after the token start is immediately at it, i.e. the
closing quote directly follows the `"jobId":"` marker — the interpreter
keeps the prior job identifier and emits no acknowledgment, because
`end > start` fails. -/
theorem C10_empty_job_token_ignored (raw : List Char) (s : FwState)
    (hj : containsSub raw jobSelTok = true)
    (hp : containsSub raw pingTok = false)
    (hr : containsSub raw resetTok = false)
    (i : Nat) (hm : findSub raw jobIdMarker = some i)
    (hq : findSub (raw.drop (i + 9)) [quoteChar] = some 0) :
    handleIncoming raw s = (s, []) := by
  have e1 : indexOfInt raw jobIdMarker = (i : Int) := by
    simp [indexOfInt, hm]
  have e2 : ((i : Int) + 9).toNat = i + 9 := by omega
  have e3 : indexOfFromInt raw [quoteChar] (i + 9)
      = ((i + 9 : Nat) : Int) := by
    simp [indexOfFromInt, hq]
  simp only [handleIncoming, hp, hr, hj, Bool.false_eq_true, if_false,
    if_true, e1, e2, e3]
  rw [if_neg]
  intro hcontra
  have habs := hcontra.2
  omega

/-- Witness for C10: the job-selection line with an explicitly empty job id
leaves the prior identifier in place and emits nothing. -/
theorem C10_empty_job_token_ignored_witness :
    handleIncoming ("\x7b\"type\":\"JOB_SELECTED\",\"jobId\":\"\"\x7d").data
        ⟨1, 2, "keep".data, 0, 0, 0⟩
      = (⟨1, 2, "keep".data, 0, 0, 0⟩, []) :=
  C10_empty_job_token_ignored
    ("\x7b\"type\":\"JOB_SELECTED\",\"jobId\":\"\"\x7d").data
    ⟨1, 2, "keep".data, 0, 0, 0⟩ (by decide) (by decide) (by decide)
    23 (by decide) (by decide)

end StrokeFw
